import Mathlib

/-!
# Verification of the BASP wire-protocol engine and condition variable

Shallow embedding of the actor-framework sources:
* `src/libcaf_io/caf/io/basp/instance.hpp` — the BASP protocol instance.
  Only declarations of the engine are present in the sources; the engine
  behaviour (header codec, connection state machine, handshake, dispatch,
  heartbeat, published-actor registry) is modelled from the specification.
* `src/libcaf_core/src/condition_variable.cpp` — condition variable on a
  priority queue of waiting threads (implementation present in full).
-/

namespace Basp

/-- Node identity: globally unique identifier of one actor-system instance. -/
abbrev NodeId := Nat

/-- Numeric actor id. -/
abbrev ActorId := Nat

/-- Listening port. -/
abbrev Port := Nat

/-- Modelled from the spec: the seven BASP message kinds
(`message_type.hpp` is not in the sources). -/
inductive MessageType where
  | server_handshake
  | client_handshake
  | dispatch_message
  | dispatch_message_named
  | announce_proxy
  | kill_proxy
  | heartbeat
  deriving DecidableEq, Repr

/-- Operation code byte for each message kind. -/
def MessageType.toByte : MessageType → Nat
  | .server_handshake => 0
  | .client_handshake => 1
  | .dispatch_message => 2
  | .dispatch_message_named => 3
  | .announce_proxy => 4
  | .kill_proxy => 5
  | .heartbeat => 6

/-- Inverse of `MessageType.toByte`; fails on an unrecognized operation code. -/
def byteToMessageType : Nat → Option MessageType
  | 0 => some .server_handshake
  | 1 => some .client_handshake
  | 2 => some .dispatch_message
  | 3 => some .dispatch_message_named
  | 4 => some .announce_proxy
  | 5 => some .kill_proxy
  | 6 => some .heartbeat
  | _ => none

/-- Modelled from the spec: the fixed-size BASP header (`header.hpp` is not in
the sources). Carries operation kind, source and destination node identity,
source actor id, destination actor id or packed symbolic name (discriminated
by the operation kind), a correlation id whose top bit flags a response, and
the payload byte length. -/
structure Header where
  operation : MessageType
  source_node : NodeId
  dest_node : NodeId
  source_actor : ActorId
  dest_actor : ActorId
  operation_data : Nat
  payload_len : Nat
  deriving DecidableEq, Repr

/-- Field widths in bytes: 1 (operation) + 4 + 4 + 8 + 8 + 8 + 4. -/
def headerSize : Nat := 37

/-- A header is valid when each field fits its fixed byte width. -/
def Header.valid (h : Header) : Prop :=
  h.source_node < 256 ^ 4 ∧ h.dest_node < 256 ^ 4 ∧
  h.source_actor < 256 ^ 8 ∧ h.dest_actor < 256 ^ 8 ∧
  h.operation_data < 256 ^ 8 ∧ h.payload_len < 256 ^ 4

instance (h : Header) : Decidable h.valid := by
  unfold Header.valid
  infer_instance

/-- Big-endian (network byte order) fixed-width encoding of a natural number. -/
def encodeN : Nat → Nat → List Nat
  | 0, _ => []
  | w + 1, v => v / 256 ^ w :: encodeN w (v % 256 ^ w)

/-- Reads a big-endian `w`-byte value from the front of a byte list,
returning the value and the remaining bytes; fails on truncated input. -/
def readN : Nat → List Nat → Option (Nat × List Nat)
  | 0, bs => some (0, bs)
  | _ + 1, [] => none
  | w + 1, b :: bs => (readN w bs).map fun vr => (b * 256 ^ w + vr.1, vr.2)

theorem encodeN_length (w v : Nat) : (encodeN w v).length = w := by
  induction w generalizing v with
  | zero => rfl
  | succ w ih => simp [encodeN, ih]

theorem readN_encodeN (w : Nat) (v : Nat) (rest : List Nat) (hv : v < 256 ^ w) :
    readN w (encodeN w v ++ rest) = some (v, rest) := by
  induction w generalizing v with
  | zero =>
    interval_cases v
    rfl
  | succ w ih =>
    have hmod : v % 256 ^ w < 256 ^ w := Nat.mod_lt _ (Nat.pos_pow_of_pos w (by norm_num))
    have hdm : v / 256 ^ w * 256 ^ w + v % 256 ^ w = v := by
      have hd := Nat.div_add_mod v (256 ^ w)
      rw [Nat.mul_comm] at hd
      omega
    simp only [encodeN, List.cons_append, readN, List.append_eq,
      ih (v % 256 ^ w) hmod, Option.map_some']
    rw [hdm]

/-- Modelled from the spec: `encode(header)` produces the fixed-width,
network-byte-order byte sequence of the header. -/
def encodeHeader (h : Header) : List Nat :=
  h.operation.toByte :: (encodeN 4 h.source_node ++ (encodeN 4 h.dest_node ++
    (encodeN 8 h.source_actor ++ (encodeN 8 h.dest_actor ++
    (encodeN 8 h.operation_data ++ encodeN 4 h.payload_len)))))

/-- Modelled from the spec: `decode(bytes)` parses a header, failing
(`FormatError`, here `none`) on truncated input or an unrecognized
operation code. -/
def decodeHeader (bs : List Nat) : Option Header :=
  match bs with
  | [] => none
  | opByte :: rest =>
    match byteToMessageType opByte with
    | none => none
    | some op =>
      match readN 4 rest with
      | none => none
      | some (sn, r1) =>
        match readN 4 r1 with
        | none => none
        | some (dn, r2) =>
          match readN 8 r2 with
          | none => none
          | some (sa, r3) =>
            match readN 8 r3 with
            | none => none
            | some (da, r4) =>
              match readN 8 r4 with
              | none => none
              | some (od, r5) =>
                match readN 4 r5 with
                | none => none
                | some (pl, r6) =>
                  if r6 = [] then
                    some ⟨op, sn, dn, sa, da, od, pl⟩
                  else none

theorem byteToMessageType_toByte (op : MessageType) :
    byteToMessageType op.toByte = some op := by
  cases op <;> rfl

theorem readN_encodeN_nil (w : Nat) (v : Nat) (hv : v < 256 ^ w) :
    readN w (encodeN w v) = some (v, []) := by
  have := readN_encodeN w v [] hv
  simpa using this

/-- Endpoint handle: stream-oriented connection or packet-oriented datagram,
mirroring `variant<connection_handle, datagram_handle>`. -/
inductive EndpointHandle where
  | connection (h : Nat)
  | datagram (h : Nat)
  deriving DecidableEq, Repr

/-- Modelled from the spec: a routing entry is either a direct endpoint or
"pending" while a connection attempt is in progress
(`routing_table.hpp` is not in the sources). -/
inductive RoutingEntry where
  | direct (hdl : EndpointHandle)
  | pending
  deriving DecidableEq, Repr

/-- Reference to an actor: its hosting node plus its numeric id. -/
structure ActorPtr where
  node : NodeId
  id : ActorId
  deriving DecidableEq, Repr

/-- A published actor: actor reference plus its interface-signature set,
mirroring `std::pair<strong_actor_ptr, std::set<std::string>>`. -/
abbrev PublishedActor := ActorPtr × List String

/-- Engine state: routing table, published-actor map and this node's
identity, mirroring the data members of `class instance`. -/
structure Instance where
  tbl : List (NodeId × RoutingEntry)
  published_actors : List (Port × PublishedActor)
  this_node : NodeId
  app_identifier : String
  deriving DecidableEq, Repr

/-- Calls into the `callee` collaborator and transport-buffer writes emitted
by one engine operation, in order. -/
inductive Event where
  | finalize_handshake (nid : NodeId) (aid : ActorId) (sigs : List String)
  | purge_state (nid : NodeId)
  | proxy_announced (nid : NodeId) (aid : ActorId)
  | deliver (source_node : NodeId) (source_actor : ActorId) (dest_actor : ActorId)
      (mid : Nat) (fwd : List ActorPtr) (msg : Nat)
  | deliver_named (source_node : NodeId) (source_actor : ActorId) (dest_name : Nat)
      (mid : Nat) (fwd : List ActorPtr) (msg : Nat)
  | learned_new_node (nid : NodeId)
  | handle_heartbeat (nid : NodeId)
  | send_buffered_messages (nid : NodeId) (hdl : Nat)
  | write_frame (hdl : EndpointHandle) (hdr : Header)
  | flush (hdl : EndpointHandle)
  | removed_published_actor (whom : ActorPtr) (port : Port)
  | kill_proxy_received (nid : NodeId) (aid : ActorId)
  deriving DecidableEq, Repr

/-- Looks up a node in the routing table. -/
def lookupNode (tbl : List (NodeId × RoutingEntry)) (nid : NodeId) :
    Option RoutingEntry :=
  (tbl.find? fun e => e.1 = nid).map Prod.snd

/-- Result of `routing_table::lookup`: a direct route or unknown. -/
inductive LookupResult where
  | direct (hdl : EndpointHandle)
  | unknown
  deriving DecidableEq, Repr

/-- The `instance::lookup` query: returns a route to `target` or `unknown` on error.
Modelled from the spec: `lookup(target_node) -> Direct(handle) | Unknown`. -/
def Instance.lookup (i : Instance) (target : NodeId) : LookupResult :=
  match lookupNode i.tbl target with
  | some (.direct hdl) => .direct hdl
  | _ => .unknown

/-- Inserts or overwrites the routing entry for `nid`. -/
def addRoute (tbl : List (NodeId × RoutingEntry)) (nid : NodeId)
    (r : RoutingEntry) : List (NodeId × RoutingEntry) :=
  (nid, r) :: tbl.filter fun e => ¬ e.1 = nid

/-- Modelled from the spec: decoded payload contents (payload-content
serialization is delegated to an external serializer and out of scope; the
engine sees the decoded shape). -/
inductive Payload where
  | handshake (peer : NodeId) (app_identifier : String)
      (published : Option (ActorId × List String))
  | dispatch_body (fwd : List ActorPtr) (msg : Nat)
  | proxy_body
  | empty
  deriving DecidableEq, Repr

/-- Connection framing states, mirroring `connection_state`. -/
inductive ConnState where
  | await_header
  | await_payload (hdr : Header)
  | faulted
  | closed
  deriving DecidableEq, Repr

/-- Per-connection framing state plus whether the connection is still fresh
(no complete message processed yet). -/
structure ConnInfo where
  state : ConnState
  fresh : Bool
  deriving DecidableEq, Repr

/-- Input chunk handed to `handle` by the transport layer: raw header bytes,
or the (already deserialized) payload of the held header. -/
inductive HandleInput where
  | header_bytes (bs : List Nat)
  | payload_chunk (p : Payload)
  deriving DecidableEq, Repr

/-- Modelled from the spec: configured maximum frame size guarding
`payload_len`. -/
def maxFrameSize : Nat := 65536

def isHandshake : MessageType → Bool
  | .server_handshake => true
  | .client_handshake => true
  | _ => false

/-- Modelled from the spec (§4.3–4.5): processes one complete message
(header plus payload) on connection `c`. Returns the new engine state, `true`
when the connection stays healthy (`false` → the caller transitions it to
`Faulted`), and the emitted collaborator calls. On a handshake with matching
application-compatibility identifier: registers the peer bound to this
connection, invokes `finalize_handshake` iff the handshake carried a
published actor, then `learned_new_node`, then `send_buffered_messages`. -/
def processMessage (i : Instance) (c : Nat) (hdr : Header) (p : Payload) :
    Instance × Bool × List Event :=
  match hdr.operation with
  | .server_handshake | .client_handshake =>
    match p with
    | .handshake peer appId published =>
      if appId = i.app_identifier then
        let i' := { i with tbl := addRoute i.tbl peer (.direct (.connection c)) }
        let finEvents := match published with
          | some (aid, sigs) => [Event.finalize_handshake peer aid sigs]
          | none => []
        (i', true, finEvents ++
          [Event.learned_new_node peer, Event.send_buffered_messages peer c])
      else
        (i, false, [])
    | _ => (i, false, [])
  | .dispatch_message =>
    match p with
    | .dispatch_body fwd msg =>
      (i, true, [Event.deliver hdr.source_node hdr.source_actor hdr.dest_actor
        hdr.operation_data fwd msg])
    | .empty =>
      (i, true, [Event.deliver hdr.source_node hdr.source_actor hdr.dest_actor
        hdr.operation_data [] 0])
    | _ => (i, false, [])
  | .dispatch_message_named =>
    match p with
    | .dispatch_body fwd msg =>
      (i, true, [Event.deliver_named hdr.source_node hdr.source_actor
        hdr.dest_actor hdr.operation_data fwd msg])
    | .empty =>
      (i, true, [Event.deliver_named hdr.source_node hdr.source_actor
        hdr.dest_actor hdr.operation_data [] 0])
    | _ => (i, false, [])
  | .announce_proxy =>
    (i, true, [Event.proxy_announced hdr.source_node hdr.dest_actor])
  | .kill_proxy =>
    (i, true, [Event.kill_proxy_received hdr.source_node hdr.dest_actor])
  | .heartbeat =>
    (i, true, [Event.handle_heartbeat hdr.source_node])

/-- Modelled from the spec (§4.2): per-connection transition function
`handle(connection, chunk, is_payload_chunk)`. In `await_header` it decodes a
header (decode failure → `faulted`; handshake kind on a non-fresh connection
→ `faulted`; `payload_len` above the configured maximum → `faulted` without
entering `await_payload`; nonzero `payload_len` → `await_payload`; otherwise
immediate dispatch). In `await_payload` it dispatches the held header with
the supplied payload. A `false` verdict from message processing transitions
the connection to `faulted`. -/
def handle (i : Instance) (c : Nat) (ci : ConnInfo) (input : HandleInput) :
    Instance × ConnInfo × List Event :=
  match ci.state, input with
  | .await_header, .header_bytes bs =>
    match decodeHeader bs with
    | none => (i, { ci with state := .faulted }, [])
    | some hdr =>
      if isHandshake hdr.operation ∧ ¬ ci.fresh then
        (i, { ci with state := .faulted }, [])
      else if hdr.payload_len > maxFrameSize then
        (i, { ci with state := .faulted }, [])
      else if hdr.payload_len > 0 then
        (i, { ci with state := .await_payload hdr }, [])
      else
        let r := processMessage i c hdr .empty
        if r.2.1 then (r.1, { state := .await_header, fresh := false }, r.2.2)
        else (r.1, { ci with state := .faulted }, r.2.2)
  | .await_payload hdr, .payload_chunk p =>
    let r := processMessage i c hdr p
    if r.2.1 then (r.1, { state := .await_header, fresh := false }, r.2.2)
    else (r.1, { ci with state := .faulted }, r.2.2)
  | .faulted, _ => (i, ci, [])
  | .closed, _ => (i, ci, [])
  | _, _ => (i, { ci with state := .faulted }, [])

/-- Modelled from the spec (§4.4), `instance::dispatch`: looks up the
receiver's node; if unknown, returns `false` with no I/O and the state
unchanged; if direct, writes a `dispatch_message` frame to that endpoint and
flushes. Returns `true` iff a path to the destination existed. -/
def Instance.dispatch (i : Instance) (sender : ActorPtr)
    (fwd : List ActorPtr) (receiver : ActorPtr) (mid : Nat) (msg : Nat) :
    Bool × Instance × List Event :=
  match i.lookup receiver.node with
  | .unknown => (false, i, [])
  | .direct hdl =>
    let hdr : Header :=
      { operation := .dispatch_message
        source_node := sender.node
        dest_node := receiver.node
        source_actor := sender.id
        dest_actor := receiver.id
        operation_data := mid
        payload_len := fwd.length + 1 }
    (true, i, [Event.write_frame hdl hdr, Event.flush hdl])

/-- The nodes currently in direct routing state, with their endpoints. -/
def directNodes (tbl : List (NodeId × RoutingEntry)) :
    List (NodeId × EndpointHandle) :=
  tbl.filterMap fun e =>
    match e.2 with
    | .direct hdl => some (e.1, hdl)
    | .pending => none

/-- Modelled from the spec, `instance::write_heartbeat`: the zero-payload
heartbeat header addressed from `this_node` to `dest`. -/
def write_heartbeat (i : Instance) (dest : NodeId) : Header :=
  { operation := .heartbeat
    source_node := i.this_node
    dest_node := dest
    source_actor := 0
    dest_actor := 0
    operation_data := 0
    payload_len := 0 }

/-- Modelled from the spec (§4.5), `instance::handle_heartbeat`: writes a
zero-payload heartbeat frame to every node currently in direct routing state
and flushes each. -/
def handle_heartbeat (i : Instance) : Instance × List Event :=
  (i, (directNodes i.tbl).flatMap fun nh =>
    [Event.write_frame nh.2 (write_heartbeat i nh.1), Event.flush nh.2])

/-- Runs `n` heartbeat ticks, accumulating emitted events in order. -/
def runTicks : Nat → Instance → Instance × List Event
  | 0, i => (i, [])
  | n + 1, i =>
    ((runTicks n (handle_heartbeat i).1).1,
      (handle_heartbeat i).2 ++ (runTicks n (handle_heartbeat i).1).2)

/-- Whether an event is a write of a heartbeat frame. -/
def isHeartbeatFrame : Event → Bool
  | .write_frame _ hdr => hdr.operation = MessageType.heartbeat
  | _ => false

/-- Counts the heartbeat frames written in an event trace. -/
def countHeartbeatFrames (evs : List Event) : Nat :=
  evs.countP isHeartbeatFrame

/-- Modelled from the spec (§4.6), `instance::add_published_actor`: inserts
or overwrites the entry for `port`. -/
def add_published_actor (i : Instance) (port : Port) (whom : ActorPtr)
    (sigs : List String) : Instance :=
  { i with published_actors :=
      (port, whom, sigs) :: i.published_actors.filter fun e => ¬ e.1 = port }

/-- Modelled from the spec (§4.6), `instance::remove_published_actor`:
removes and returns the entry for `port`, invoking the optional removal
callback with `(actor, port)`. -/
def remove_published_actor (i : Instance) (port : Port) :
    Instance × Option PublishedActor × List Event :=
  match (i.published_actors.find? fun e => e.1 = port).map Prod.snd with
  | none => (i, none, [])
  | some pa =>
    ({ i with published_actors :=
        i.published_actors.filter fun e => ¬ e.1 = port },
      some pa, [Event.removed_published_actor pa.1 port])

/-- A fresh engine with empty routing table and registry. -/
def initInstance (thisNode : NodeId) (appId : String) : Instance :=
  { tbl := [], published_actors := [], this_node := thisNode,
    app_identifier := appId }

/-- The engine's entry points, for stating state invariants. -/
inductive Op where
  | recv (c : Nat) (ci : ConnInfo) (input : HandleInput)
  | dispatch_op (sender : ActorPtr) (fwd : List ActorPtr) (receiver : ActorPtr)
      (mid : Nat) (msg : Nat)
  | heartbeat_tick
  | publish (port : Port) (whom : ActorPtr) (sigs : List String)
  | unpublish (port : Port)
  | connect_pending (nid : NodeId)
  | disconnect (nid : NodeId)

/-- One engine step: applies the entry point and returns the new engine state
together with the emitted events. `connect_pending` records a connection
attempt in progress; `disconnect`, modelled from the spec, invokes
`purge_state(node)` before the node is erased from the routing table. -/
def step (i : Instance) : Op → Instance × List Event
  | .recv c ci input =>
    let r := handle i c ci input
    (r.1, r.2.2)
  | .dispatch_op sender fwd receiver mid msg =>
    let r := i.dispatch sender fwd receiver mid msg
    (r.2.1, r.2.2)
  | .heartbeat_tick => handle_heartbeat i
  | .publish port whom sigs => (add_published_actor i port whom sigs, [])
  | .unpublish port =>
    let r := remove_published_actor i port
    (r.1, r.2.2)
  | .connect_pending nid =>
    ({ i with tbl := addRoute i.tbl nid .pending }, [])
  | .disconnect nid =>
    match lookupNode i.tbl nid with
    | none => (i, [])
    | some _ =>
      ({ i with tbl := i.tbl.filter fun e => ¬ e.1 = nid },
        [Event.purge_state nid])

/-- A node is present in the routing table. -/
def containsNode (tbl : List (NodeId × RoutingEntry)) (nid : NodeId) : Prop :=
  (lookupNode tbl nid).isSome

instance (tbl : List (NodeId × RoutingEntry)) (nid : NodeId) :
    Decidable (containsNode tbl nid) := by
  unfold containsNode
  infer_instance

end Basp

namespace CV

/-- The value `-1u` as a 32-bit unsigned integer, the sentinel written into a removed
queue node's `data` field. -/
def NEG1 : Nat := 4294967295

/-- A `priority_queue_node_t`: priority plus a `data` field holding the
waiting thread's pid (or `NEG1` once signaled). -/
structure PQNode where
  priority : Nat
  data : Nat
  deriving DecidableEq, Repr

/-- Thread status; `notify_one`/`notify_all` set woken threads to
`STATUS_PENDING`. -/
inductive ThreadStatus where
  | pending
  | other (s : Nat)
  deriving DecidableEq, Repr

/-- A `tcb_t`: the scheduler's per-thread control block. -/
structure Tcb where
  priority : Nat
  status : ThreadStatus
  deriving DecidableEq, Repr

/-- The scheduler's `sched_threads` table, indexed by pid; `none` models a
NULL slot (dead or never-created thread). -/
structure Sched where
  threads : List (Option Tcb)
  deriving DecidableEq, Repr

/-- Reads `sched_threads[pid]`; out-of-range reads yield NULL. -/
def Sched.getThread (s : Sched) (pid : Nat) : Option Tcb :=
  match s.threads.get? pid with
  | some t => t
  | none => none

/-- Updates the status of the thread slot at index `j`, if live. -/
def setThreads : List (Option Tcb) → Nat → ThreadStatus → List (Option Tcb)
  | [], _, _ => []
  | t :: ts, 0, st => (t.map fun tcb => { tcb with status := st }) :: ts
  | t :: ts, j + 1, st => t :: setThreads ts j st

/-- Performs `sched_set_status(thread, st)` for the thread registered at `pid`. -/
def Sched.setStatus (s : Sched) (pid : Nat) (st : ThreadStatus) : Sched :=
  { threads := setThreads s.threads pid st }

/-- The `max_prio` lambda of `notify_all`:
`(a < 0) ? b : ((a < b) ? a : b)`. -/
def max_prio (a b : Int) : Int :=
  if a < 0 then b else if a < b then a else b

/-- The loop body of `condition_variable::notify_all`: removes the queue
head until the queue is exhausted; for each removed node, if
`sched_threads[head->data]` is a live thread, sets it to `STATUS_PENDING`
and folds its priority into `other_prio`; then sets `head->data = -1u`.
Returns the final scheduler, the removed (mutated) nodes in removal order,
and the final `other_prio`. -/
def notify_all_loop (s : Sched) (queue : List PQNode) (prio : Int) :
    Sched × List PQNode × Int :=
  match queue with
  | [] => (s, [], prio)
  | head :: rest =>
    match s.getThread head.data with
    | some t =>
      let s' := s.setStatus head.data .pending
      let r := notify_all_loop s' rest (max_prio prio t.priority)
      (r.1, { head with data := NEG1 } :: r.2.1, r.2.2)
    | none =>
      let r := notify_all_loop s rest prio
      (r.1, { head with data := NEG1 } :: r.2.1, r.2.2)

/-- Implements `condition_variable::notify_all`: drains the waiter queue (the loop runs
until `priority_queue_remove_head` returns NULL). Returns the scheduler
state, the removed nodes, the remaining queue, and `other_prio`. -/
def notify_all (s : Sched) (queue : List PQNode) :
    Sched × List PQNode × List PQNode × Int :=
  let r := notify_all_loop s queue (-1)
  (r.1, r.2.1, [], r.2.2)

/-- An exception value; `wait` throws `std::runtime_error`. -/
inductive CVError where
  | runtime_error (msg : String)
  deriving DecidableEq, Repr

/-- RIOT's `priority_queue_add`: insert keeping the queue ordered by
priority (head = smallest). -/
def priority_queue_add (q : List PQNode) (n : PQNode) : List PQNode :=
  match q with
  | [] => [n]
  | m :: rest =>
    if n.priority < m.priority then n :: m :: rest
    else m :: priority_queue_add rest n

/-- Implements `condition_variable::wait` up to the `mutex_unlock_and_sleep` point:
checks `lock.owns_lock()` and throws `std::runtime_error` before enqueuing
when the mutex is not held (although the function is declared `noexcept`);
otherwise builds a queue node from the active thread's priority and pid and
adds it to the waiter queue. Returns the thrown exception, if any, together
with the waiter queue as it stands when control leaves. -/
def wait (owns_lock : Bool) (active_priority : Nat) (active_pid : Nat)
    (queue : List PQNode) : Option CVError × List PQNode :=
  if ¬ owns_lock then
    (some (.runtime_error "condition_variable::wait: mutex not locked"), queue)
  else
    (none,
      priority_queue_add queue { priority := active_priority, data := active_pid })

/-- The thread registered at `pid` exists and is `STATUS_PENDING`. -/
def pendingAt (s : Sched) (pid : Nat) : Prop :=
  ∃ t, s.getThread pid = some t ∧ t.status = .pending

end CV

/-! ## Helper lemmas -/

namespace Basp

theorem decodeHeader_encodeHeader (h : Header) (hv : h.valid) :
    decodeHeader (encodeHeader h) = some h := by
  obtain ⟨h1, h2, h3, h4, h5, h6⟩ := hv
  simp only [encodeHeader, decodeHeader, byteToMessageType_toByte,
    readN_encodeN, readN_encodeN_nil, h1, h2, h3, h4, h5, h6, if_true]

theorem encodeHeader_length (h : Header) : (encodeHeader h).length = headerSize := by
  simp [encodeHeader, headerSize, encodeN_length]

end Basp

namespace Basp

theorem containsNode_iff (tbl : List (NodeId × RoutingEntry)) (n : NodeId) :
    containsNode tbl n ↔ ∃ e ∈ tbl, e.1 = n := by
  simp [containsNode, lookupNode, List.find?_isSome]

theorem containsNode_addRoute (tbl : List (NodeId × RoutingEntry))
    (m n : NodeId) (r : RoutingEntry) :
    containsNode (addRoute tbl m r) n ↔ n = m ∨ containsNode tbl n := by
  simp only [containsNode_iff, addRoute, List.mem_cons, List.mem_filter]
  constructor
  · rintro ⟨e, he, hen⟩
    rcases he with he | ⟨het, _⟩
    · subst he
      exact Or.inl hen.symm
    · exact Or.inr ⟨e, het, hen⟩
  · rintro (hnm | ⟨e, het, hen⟩)
    · exact ⟨(m, r), Or.inl rfl, hnm.symm⟩
    · by_cases hem : e.1 = m
      · exact ⟨(m, r), Or.inl rfl, (hen.symm.trans hem).symm⟩
      · exact ⟨e, Or.inr ⟨het, by simpa using hem⟩, hen⟩

theorem containsNode_filter (tbl : List (NodeId × RoutingEntry)) (m n : NodeId) :
    containsNode (tbl.filter fun e => ¬ e.1 = m) n ↔
      containsNode tbl n ∧ n ≠ m := by
  simp only [containsNode_iff, List.mem_filter]
  constructor
  · rintro ⟨e, ⟨het, hem⟩, hen⟩
    refine ⟨⟨e, het, hen⟩, ?_⟩
    simp only [decide_not, Bool.not_eq_true', decide_eq_false_iff_not] at hem
    rw [← hen]
    exact hem
  · rintro ⟨⟨e, het, hen⟩, hnm⟩
    refine ⟨e, ⟨het, ?_⟩, hen⟩
    simp only [decide_not, Bool.not_eq_true', decide_eq_false_iff_not]
    rw [hen]
    exact hnm

/-- The function `processMessage` only ever adds the handshake peer to the routing table,
and whenever it does so it also emits `learned_new_node` for that peer; it
never removes a node. -/
theorem processMessage_tbl (i : Instance) (c : Nat) (hdr : Header)
    (p : Payload) (n : NodeId) :
    (containsNode (processMessage i c hdr p).1.tbl n →
      containsNode i.tbl n ∨
        Event.learned_new_node n ∈ (processMessage i c hdr p).2.2) ∧
    (containsNode i.tbl n → containsNode (processMessage i c hdr p).1.tbl n) := by
  cases hop : hdr.operation <;>
    cases p <;>
      simp_all [processMessage] <;>
        rename_i peer appId published <;>
          by_cases hid : appId = i.app_identifier <;>
            simp_all [containsNode_addRoute] <;>
              rcases published with _ | ⟨aid, sigs⟩ <;>
                simp_all <;> tauto

end Basp

namespace Basp

/-- The function `handle` only ever adds the handshake peer to the routing table (emitting
`learned_new_node` for it) and never removes a node. -/
theorem handle_tbl (i : Instance) (c : Nat) (ci : ConnInfo)
    (input : HandleInput) (n : NodeId) :
    (containsNode (handle i c ci input).1.tbl n →
      containsNode i.tbl n ∨
        Event.learned_new_node n ∈ (handle i c ci input).2.2) ∧
    (containsNode i.tbl n → containsNode (handle i c ci input).1.tbl n) := by
  obtain ⟨st, fr⟩ := ci
  cases st with
  | await_header =>
    cases input with
    | payload_chunk p => exact ⟨fun h => Or.inl h, fun h => h⟩
    | header_bytes bs =>
      cases hdec : decodeHeader bs with
      | none =>
        simp only [handle, hdec]
        exact ⟨fun h => Or.inl h, fun h => h⟩
      | some hdr =>
        have hp := processMessage_tbl i c hdr .empty n
        simp only [handle, hdec]
        split_ifs <;>
          first
            | exact ⟨fun h => Or.inl h, fun h => h⟩
            | exact hp
  | await_payload hdr =>
    cases input with
    | header_bytes bs => exact ⟨fun h => Or.inl h, fun h => h⟩
    | payload_chunk p =>
      have hp := processMessage_tbl i c hdr p n
      simp only [handle]
      split_ifs <;> exact hp
  | faulted => exact ⟨fun h => Or.inl h, fun h => h⟩
  | closed => exact ⟨fun h => Or.inl h, fun h => h⟩

/-- The function `dispatch` never changes the engine state. -/
theorem dispatch_instance (i : Instance) (sender : ActorPtr)
    (fwd : List ActorPtr) (receiver : ActorPtr) (mid : Nat) (msg : Nat) :
    (i.dispatch sender fwd receiver mid msg).2.1 = i := by
  unfold Instance.dispatch
  split <;> rfl

end Basp

namespace Basp

theorem handle_heartbeat_fst (i : Instance) : (handle_heartbeat i).1 = i := rfl

theorem runTicks_fst (n : Nat) (i : Instance) : (runTicks n i).1 = i := by
  induction n generalizing i with
  | zero => rfl
  | succ n ih => simpa [runTicks, handle_heartbeat_fst] using ih i

theorem countHeartbeatFrames_append (a b : List Event) :
    countHeartbeatFrames (a ++ b) =
      countHeartbeatFrames a + countHeartbeatFrames b := by
  simp [countHeartbeatFrames, List.countP_append]

theorem isHeartbeatFrame_write_heartbeat (i : Instance) (n : NodeId)
    (hdl : EndpointHandle) :
    isHeartbeatFrame (Event.write_frame hdl (write_heartbeat i n)) = true := rfl

theorem isHeartbeatFrame_flush (hdl : EndpointHandle) :
    isHeartbeatFrame (Event.flush hdl) = false := rfl

theorem countHeartbeatFrames_tick (i : Instance) :
    countHeartbeatFrames (handle_heartbeat i).2 = (directNodes i.tbl).length := by
  unfold handle_heartbeat
  induction directNodes i.tbl with
  | nil => rfl
  | cons nh rest ih =>
    simp only [List.flatMap_cons, List.cons_append, List.nil_append]
    simp only [countHeartbeatFrames, List.countP_cons,
      isHeartbeatFrame_write_heartbeat, isHeartbeatFrame_flush] at ih ⊢
    simp [ih]

theorem mem_tick_events (i : Instance) (ev : Event)
    (h : ev ∈ (handle_heartbeat i).2) :
    ∃ nh ∈ directNodes i.tbl,
      ev = Event.write_frame nh.2 (write_heartbeat i nh.1) ∨
        ev = Event.flush nh.2 := by
  simp only [handle_heartbeat, List.mem_flatMap, List.mem_cons,
    List.mem_singleton, List.not_mem_nil, or_false] at h
  obtain ⟨nh, hnh, hev⟩ := h
  exact ⟨nh, hnh, hev⟩

theorem flush_mem_tick_events (i : Instance) (nh : NodeId × EndpointHandle)
    (h : nh ∈ directNodes i.tbl) :
    Event.flush nh.2 ∈ (handle_heartbeat i).2 := by
  simp only [handle_heartbeat, List.mem_flatMap]
  exact ⟨nh, h, by simp⟩

theorem mem_runTicks_events (n : Nat) (i : Instance) (ev : Event)
    (h : ev ∈ (runTicks n i).2) : ev ∈ (handle_heartbeat i).2 := by
  induction n with
  | zero => simp [runTicks] at h
  | succ n ih =>
    simp only [runTicks, handle_heartbeat_fst, List.mem_append] at h
    rcases h with h | h
    · exact h
    · exact ih h

theorem countHeartbeatFrames_runTicks (n : Nat) (i : Instance) :
    countHeartbeatFrames (runTicks n i).2 =
      n * (directNodes i.tbl).length := by
  induction n with
  | zero => simp [runTicks, countHeartbeatFrames]
  | succ n ih =>
    simp only [runTicks, handle_heartbeat_fst, countHeartbeatFrames_append,
      countHeartbeatFrames_tick, ih]
    ring

end Basp

namespace CV

theorem get_setThreads_self (ts : List (Option Tcb)) (j : Nat)
    (st : ThreadStatus) :
    (setThreads ts j st).get? j =
      (ts.get? j).map (Option.map fun t => { t with status := st }) := by
  induction ts generalizing j with
  | nil => simp [setThreads]
  | cons t ts ih =>
    cases j with
    | zero => simp [setThreads]
    | succ j => simpa [setThreads] using ih j

theorem get_setThreads_other (ts : List (Option Tcb)) (j k : Nat)
    (st : ThreadStatus) (h : k ≠ j) :
    (setThreads ts j st).get? k = ts.get? k := by
  induction ts generalizing j k with
  | nil => simp [setThreads]
  | cons t ts ih =>
    cases j with
    | zero =>
      cases k with
      | zero => exact absurd rfl h
      | succ k => simp [setThreads]
    | succ j =>
      cases k with
      | zero => simp [setThreads]
      | succ k => simpa [setThreads] using ih j k (by omega)

theorem getThread_setStatus_self (s : Sched) (pid : Nat) (st : ThreadStatus) :
    (s.setStatus pid st).getThread pid =
      (s.getThread pid).map fun t => { t with status := st } := by
  unfold Sched.getThread Sched.setStatus
  simp only [get_setThreads_self]
  cases s.threads.get? pid with
  | none => rfl
  | some t => cases t <;> rfl

theorem getThread_setStatus_other (s : Sched) (j pid : Nat)
    (st : ThreadStatus) (h : pid ≠ j) :
    (s.setStatus j st).getThread pid = s.getThread pid := by
  unfold Sched.getThread Sched.setStatus
  rw [get_setThreads_other _ _ _ _ h]

theorem pendingAt_setStatus_self (s : Sched) (pid : Nat)
    (h : (s.getThread pid).isSome = true) :
    pendingAt (s.setStatus pid .pending) pid := by
  rw [Option.isSome_iff_exists] at h
  obtain ⟨t, ht⟩ := h
  exact ⟨{ t with status := .pending }, by rw [getThread_setStatus_self, ht]; rfl, rfl⟩

theorem pendingAt_setStatus (s : Sched) (j pid : Nat)
    (h : pendingAt s pid) : pendingAt (s.setStatus j .pending) pid := by
  by_cases hj : pid = j
  · subst hj
    obtain ⟨t, ht, _⟩ := h
    exact pendingAt_setStatus_self s pid (by rw [ht]; rfl)
  · obtain ⟨t, ht, hst⟩ := h
    exact ⟨t, by rw [getThread_setStatus_other s j pid _ hj]; exact ht, hst⟩

theorem isSome_setStatus (s : Sched) (j pid : Nat) (st : ThreadStatus)
    (h : (s.getThread pid).isSome = true) :
    ((s.setStatus j st).getThread pid).isSome = true := by
  by_cases hj : pid = j
  · subst hj
    rw [getThread_setStatus_self, Option.isSome_map']
    exact h
  · rw [getThread_setStatus_other s j pid st hj]
    exact h

theorem notify_all_loop_pending_mono (q : List PQNode) (s : Sched)
    (prio : Int) (pid : Nat) (h : pendingAt s pid) :
    pendingAt (notify_all_loop s q prio).1 pid := by
  induction q generalizing s prio with
  | nil => exact h
  | cons head rest ih =>
    cases hg : s.getThread head.data with
    | some t =>
      simp only [notify_all_loop, hg]
      exact ih _ _ (pendingAt_setStatus s head.data pid h)
    | none =>
      simp only [notify_all_loop, hg]
      exact ih _ _ h

theorem notify_all_loop_pending (q : List PQNode) (s : Sched) (prio : Int) :
    ∀ node ∈ q, (s.getThread node.data).isSome = true →
      pendingAt (notify_all_loop s q prio).1 node.data := by
  induction q generalizing s prio with
  | nil => simp
  | cons head rest ih =>
    intro node hmem hsome
    rcases List.mem_cons.mp hmem with heq | hrest
    · subst heq
      cases hg : s.getThread node.data with
      | some t =>
        simp only [notify_all_loop, hg]
        exact notify_all_loop_pending_mono rest _ _ _
          (pendingAt_setStatus_self s node.data hsome)
      | none =>
        rw [hg] at hsome
        exact absurd hsome (by simp)
    · cases hg : s.getThread head.data with
      | some t =>
        simp only [notify_all_loop, hg]
        exact ih _ _ node hrest (isSome_setStatus s head.data node.data _ hsome)
      | none =>
        simp only [notify_all_loop, hg]
        exact ih _ _ node hrest hsome

theorem notify_all_loop_removed (q : List PQNode) (s : Sched) (prio : Int) :
    (notify_all_loop s q prio).2.1 =
      q.map fun node => { node with data := NEG1 } := by
  induction q generalizing s prio with
  | nil => rfl
  | cons head rest ih =>
    cases hg : s.getThread head.data <;>
      simp [notify_all_loop, hg, ih]

end CV

namespace Basp

theorem lookupNode_addRoute_self (tbl : List (NodeId × RoutingEntry))
    (m : NodeId) (r : RoutingEntry) :
    lookupNode (addRoute tbl m r) m = some r := by
  simp [lookupNode, addRoute, List.find?_cons_of_pos]

/-- Every frame written by heartbeat ticks is the zero-payload heartbeat
frame of a node in direct routing state, and its endpoint is also flushed. -/
theorem runTicks_write_frames (n : Nat) (i : Instance) (hdl : EndpointHandle)
    (hdr : Header) (h : Event.write_frame hdl hdr ∈ (runTicks n i).2) :
    hdr = write_heartbeat i hdr.dest_node ∧
    (hdr.dest_node, hdl) ∈ directNodes i.tbl ∧
    Event.flush hdl ∈ (runTicks n i).2 := by
  induction n with
  | zero => simp [runTicks] at h
  | succ n ih =>
    simp only [runTicks, handle_heartbeat_fst, List.mem_append] at h ⊢
    rcases h with h | h
    · obtain ⟨nh, hnh, hev⟩ := mem_tick_events i _ h
      rcases hev with hev | hev
      · obtain ⟨h1, h2⟩ := Event.write_frame.inj hev
        subst h1
        subst h2
        refine ⟨rfl, ?_, Or.inl (flush_mem_tick_events i nh hnh)⟩
        simpa [write_heartbeat] using hnh
      · exact absurd hev (by simp)
    · obtain ⟨h1, h2, h3⟩ := ih h
      exact ⟨h1, h2, Or.inr h3⟩

end Basp

/-! ## Claim theorems -/

/-- C5: for every valid header `h`, `encode` produces a fixed-size byte
sequence and decoding it yields `h` again: `decode(encode(h)) = h`. -/
theorem C5_header_codec_roundtrip (h : Basp.Header) (hv : h.valid) :
    (Basp.encodeHeader h).length = Basp.headerSize ∧
    Basp.decodeHeader (Basp.encodeHeader h) = some h :=
  ⟨Basp.encodeHeader_length h, Basp.decodeHeader_encodeHeader h hv⟩

/-- Witness for C5: the round-trip at a concrete valid header. -/
theorem C5_header_codec_roundtrip_witness :
    Basp.Header.valid ⟨.dispatch_message, 1, 2, 3, 4, 5, 6⟩ ∧
    ((Basp.encodeHeader ⟨.dispatch_message, 1, 2, 3, 4, 5, 6⟩).length =
        Basp.headerSize ∧
      Basp.decodeHeader
          (Basp.encodeHeader ⟨.dispatch_message, 1, 2, 3, 4, 5, 6⟩) =
        some ⟨.dispatch_message, 1, 2, 3, 4, 5, 6⟩) :=
  ⟨by decide, C5_header_codec_roundtrip ⟨.dispatch_message, 1, 2, 3, 4, 5, 6⟩
    (by decide)⟩

/-- C3: a `dispatch` whose receiver node is not in the routing table returns
a route-not-found result (`false`), performs no I/O (no events), and leaves
the entire engine state — routing table and published-actor registry —
unchanged. -/
theorem C3_dispatch_unknown_route (i : Basp.Instance) (sender : Basp.ActorPtr)
    (fwd : List Basp.ActorPtr) (receiver : Basp.ActorPtr) (mid msg : Nat)
    (h : i.lookup receiver.node = .unknown) :
    i.dispatch sender fwd receiver mid msg = (false, i, []) := by
  unfold Basp.Instance.dispatch
  rw [h]

/-- Witness for C3: dispatch to an unknown node on an empty table. -/
theorem C3_dispatch_unknown_route_witness :
    Basp.Instance.dispatch ⟨[], [], 0, "app"⟩ ⟨0, 1⟩ [] ⟨3, 4⟩ 9 7 =
      (false, ⟨[], [], 0, "app"⟩, []) :=
  C3_dispatch_unknown_route ⟨[], [], 0, "app"⟩ ⟨0, 1⟩ [] ⟨3, 4⟩ 9 7 rfl

/-- C7: starting from an empty registry, `publish(7, actorA, ["sigX"])`
inserts the entry for port 7; the following `unpublish(7)` removes and
returns the exact pair, invokes the removal callback with `(actorA, 7)`, and
leaves the registry empty; a second `publish` on the same port overwrites
the entry. -/
theorem C7_publish_unpublish :
    (Basp.add_published_actor ⟨[], [], 0, "app"⟩ 7 ⟨0, 42⟩
        ["sigX"]).published_actors = [(7, (⟨0, 42⟩, ["sigX"]))] ∧
    Basp.remove_published_actor
        (Basp.add_published_actor ⟨[], [], 0, "app"⟩ 7 ⟨0, 42⟩ ["sigX"]) 7 =
      (⟨[], [], 0, "app"⟩, some (⟨0, 42⟩, ["sigX"]),
        [Basp.Event.removed_published_actor ⟨0, 42⟩ 7]) ∧
    (Basp.add_published_actor
        (Basp.add_published_actor ⟨[], [], 0, "app"⟩ 7 ⟨0, 42⟩ ["sigX"])
        7 ⟨0, 43⟩ ["sigY"]).published_actors = [(7, (⟨0, 43⟩, ["sigY"]))] :=
  ⟨rfl, rfl, rfl⟩

/-- C9: calling `condition_variable::wait` with a `unique_lock` that does
not own its mutex throws `std::runtime_error` before enqueuing the caller,
leaving the waiter queue unchanged (despite the `noexcept` declaration on
`wait`, the throw statement executes first). -/
theorem C9_wait_not_locked (prio pid : Nat) (q : List CV.PQNode) :
    CV.wait false prio pid q =
      (some (.runtime_error "condition_variable::wait: mutex not locked"),
        q) := by
  simp [CV.wait]

/-- C10: after `notify_all`, the waiter queue is empty, every removed node
has its `data` field set to `-1u`, and every queued node that referenced a
live thread has that thread set to `STATUS_PENDING`. -/
theorem C10_notify_all_drains (s : CV.Sched) (q : List CV.PQNode) :
    (CV.notify_all s q).2.2.1 = [] ∧
    (CV.notify_all s q).2.1 =
      q.map (fun node => { node with data := CV.NEG1 }) ∧
    ∀ node ∈ q, (s.getThread node.data).isSome = true →
      CV.pendingAt (CV.notify_all s q).1 node.data :=
  ⟨rfl, CV.notify_all_loop_removed q s (-1),
    fun node hmem hsome => CV.notify_all_loop_pending q s (-1) node hmem hsome⟩

/-- Witness for C10: a queue with one live and one dead waiter; the live
thread at pid 0 ends up `STATUS_PENDING`. -/
theorem C10_notify_all_drains_witness :
    CV.pendingAt
      (CV.notify_all ⟨[some ⟨3, .other 0⟩, none]⟩ [⟨3, 0⟩, ⟨1, 1⟩]).1 0 :=
  (C10_notify_all_drains ⟨[some ⟨3, .other 0⟩, none]⟩ [⟨3, 0⟩, ⟨1, 1⟩]).2.2
    ⟨3, 0⟩ (by decide) (by decide)

/-- C1: receiving a handshake whose application-compatibility identifier
equals the local one registers the peer's node in the routing table bound to
this connection, invokes `finalize_handshake(peer, aid, sigs)` — with
exactly the actor id and signature set carried by the handshake — iff the
handshake carried a published actor, invokes `learned_new_node(peer)`
unconditionally, and invokes `send_buffered_messages(peer, connection)`
exactly once. -/
theorem C1_handshake_success (i : Basp.Instance) (c : Nat) (fr : Bool)
    (hdr : Basp.Header) (peer : Basp.NodeId)
    (pub : Option (Basp.ActorId × List String))
    (hop : Basp.isHandshake hdr.operation = true) :
    Basp.lookupNode (Basp.handle i c ⟨.await_payload hdr, fr⟩
        (.payload_chunk (.handshake peer i.app_identifier pub))).1.tbl peer =
      some (.direct (.connection c)) ∧
    (∀ aid sigs, Basp.Event.finalize_handshake peer aid sigs ∈
        (Basp.handle i c ⟨.await_payload hdr, fr⟩
          (.payload_chunk (.handshake peer i.app_identifier pub))).2.2 ↔
      pub = some (aid, sigs)) ∧
    Basp.Event.learned_new_node peer ∈
      (Basp.handle i c ⟨.await_payload hdr, fr⟩
        (.payload_chunk (.handshake peer i.app_identifier pub))).2.2 ∧
    (Basp.handle i c ⟨.await_payload hdr, fr⟩
        (.payload_chunk (.handshake peer i.app_identifier pub))).2.2.count
      (Basp.Event.send_buffered_messages peer c) = 1 := by
  cases hmt : hdr.operation <;> simp [Basp.isHandshake, hmt] at hop <;>
    rcases pub with _ | ⟨aid, sigs⟩ <;>
      simp [Basp.handle, Basp.processMessage, hmt,
        Basp.lookupNode_addRoute_self, List.count_cons] <;>
        exact fun a s =>
          ⟨fun h => ⟨h.1.symm, h.2.symm⟩, fun h => ⟨h.1.symm, h.2.symm⟩⟩

/-- Witness for C1: a server handshake with matching identifier and a
published actor on a fresh connection; `finalize_handshake` receives the
carried actor id 7 and signature set `["sigX"]`. -/
theorem C1_handshake_success_witness :
    Basp.lookupNode (Basp.handle ⟨[], [], 0, "app"⟩ 5
        ⟨.await_payload ⟨.server_handshake, 1, 0, 0, 0, 0, 1⟩, true⟩
        (.payload_chunk (.handshake 9 "app"
          (some (7, ["sigX"]))))).1.tbl 9 =
      some (.direct (.connection 5)) ∧
    Basp.Event.finalize_handshake 9 7 ["sigX"] ∈
      (Basp.handle ⟨[], [], 0, "app"⟩ 5
        ⟨.await_payload ⟨.server_handshake, 1, 0, 0, 0, 0, 1⟩, true⟩
        (.payload_chunk (.handshake 9 "app" (some (7, ["sigX"]))))).2.2 ∧
    Basp.Event.learned_new_node 9 ∈
      (Basp.handle ⟨[], [], 0, "app"⟩ 5
        ⟨.await_payload ⟨.server_handshake, 1, 0, 0, 0, 0, 1⟩, true⟩
        (.payload_chunk (.handshake 9 "app" (some (7, ["sigX"]))))).2.2 ∧
    (Basp.handle ⟨[], [], 0, "app"⟩ 5
        ⟨.await_payload ⟨.server_handshake, 1, 0, 0, 0, 0, 1⟩, true⟩
        (.payload_chunk (.handshake 9 "app"
          (some (7, ["sigX"]))))).2.2.count
      (Basp.Event.send_buffered_messages 9 5) = 1 :=
  let h := C1_handshake_success ⟨[], [], 0, "app"⟩ 5 true
    ⟨.server_handshake, 1, 0, 0, 0, 0, 1⟩ 9 (some (7, ["sigX"])) rfl
  ⟨h.1, (h.2.1 7 ["sigX"]).mpr rfl, h.2.2.1, h.2.2.2⟩

/-- C2: a handshake whose application-compatibility identifier differs from
the local one, or a handshake header arriving on a connection that is no
longer fresh, transitions the connection to `Faulted`, emits no collaborator
calls, and leaves the engine (hence the routing table) unchanged. -/
theorem C2_handshake_reject (i : Basp.Instance) (c : Nat) :
    (∀ (fr : Bool) (hdr : Basp.Header) (peer : Basp.NodeId) (appId : String)
        (pub : Option (Basp.ActorId × List String)),
      Basp.isHandshake hdr.operation = true →
      appId ≠ i.app_identifier →
      Basp.handle i c ⟨.await_payload hdr, fr⟩
          (.payload_chunk (.handshake peer appId pub)) =
        (i, ⟨.faulted, fr⟩, [])) ∧
    (∀ (bs : List Nat) (hdr : Basp.Header),
      Basp.decodeHeader bs = some hdr →
      Basp.isHandshake hdr.operation = true →
      Basp.handle i c ⟨.await_header, false⟩ (.header_bytes bs) =
        (i, ⟨.faulted, false⟩, [])) := by
  constructor
  · intro fr hdr peer appId pub hop hne
    cases hmt : hdr.operation <;> simp [Basp.isHandshake, hmt] at hop <;>
      simp [Basp.handle, Basp.processMessage, hmt, hne]
  · intro bs hdr hdec hop
    simp [Basp.handle, hdec, hop]

/-- Witness for C2: a mismatched-identifier handshake payload, and a
handshake header on a non-fresh connection. -/
theorem C2_handshake_reject_witness :
    Basp.handle ⟨[], [], 0, "app"⟩ 5
        ⟨.await_payload ⟨.server_handshake, 1, 0, 0, 0, 0, 1⟩, true⟩
        (.payload_chunk (.handshake 1 "other" none)) =
      (⟨[], [], 0, "app"⟩, ⟨.faulted, true⟩, []) ∧
    Basp.handle ⟨[], [], 0, "app"⟩ 5 ⟨.await_header, false⟩
        (.header_bytes
          (Basp.encodeHeader ⟨.server_handshake, 1, 0, 0, 0, 0, 1⟩)) =
      (⟨[], [], 0, "app"⟩, ⟨.faulted, false⟩, []) :=
  ⟨(C2_handshake_reject ⟨[], [], 0, "app"⟩ 5).1 true
      ⟨.server_handshake, 1, 0, 0, 0, 0, 1⟩ 1 "other" none rfl (by decide),
    (C2_handshake_reject ⟨[], [], 0, "app"⟩ 5).2
      (Basp.encodeHeader ⟨.server_handshake, 1, 0, 0, 0, 0, 1⟩)
      ⟨.server_handshake, 1, 0, 0, 0, 0, 1⟩ (by decide) rfl⟩

/-- C4: in `AwaitHeader`, a decoded header whose `payload_len` exceeds the
configured maximum frame size transitions the connection to `Faulted`
immediately: the engine state is untouched, no events are emitted, and
`AwaitPayload` is never entered (no receive buffer for the declared payload
is set up). -/
theorem C4_oversized_frame_faults (i : Basp.Instance) (c : Nat) (fr : Bool)
    (bs : List Nat) (hdr : Basp.Header)
    (hdec : Basp.decodeHeader bs = some hdr)
    (hsz : hdr.payload_len > Basp.maxFrameSize) :
    Basp.handle i c ⟨.await_header, fr⟩ (.header_bytes bs) =
      (i, ⟨.faulted, fr⟩, []) := by
  simp only [Basp.handle, hdec]
  by_cases h1 : Basp.isHandshake hdr.operation ∧ ¬ fr
  · rw [if_pos h1]
  · rw [if_neg h1, if_pos hsz]

/-- Witness for C4: a header declaring a 65537-byte payload, one above the
configured maximum. -/
theorem C4_oversized_frame_faults_witness :
    Basp.handle ⟨[], [], 0, "app"⟩ 5 ⟨.await_header, true⟩
        (.header_bytes
          (Basp.encodeHeader ⟨.dispatch_message, 1, 2, 3, 4, 5, 65537⟩)) =
      (⟨[], [], 0, "app"⟩, ⟨.faulted, true⟩, []) :=
  C4_oversized_frame_faults ⟨[], [], 0, "app"⟩ 5 true
    (Basp.encodeHeader ⟨.dispatch_message, 1, 2, 3, 4, 5, 65537⟩)
    ⟨.dispatch_message, 1, 2, 3, 4, 5, 65537⟩ (by decide) (by decide)

/-- C6: `n` heartbeat ticks with `k` nodes in direct routing state produce
exactly `n*k` heartbeat frames; every frame written during the ticks is the
zero-payload heartbeat frame addressed to a node in direct state, written to
that node's endpoint, and that endpoint is also flushed. -/
theorem C6_heartbeat_ticks (n : Nat) (i : Basp.Instance) :
    Basp.countHeartbeatFrames (Basp.runTicks n i).2 =
      n * (Basp.directNodes i.tbl).length ∧
    ∀ hdl hdr, Basp.Event.write_frame hdl hdr ∈ (Basp.runTicks n i).2 →
      hdr = Basp.write_heartbeat i hdr.dest_node ∧
      (hdr.dest_node, hdl) ∈ Basp.directNodes i.tbl ∧
      Basp.Event.flush hdl ∈ (Basp.runTicks n i).2 :=
  ⟨Basp.countHeartbeatFrames_runTicks n i,
    fun hdl hdr h => Basp.runTicks_write_frames n i hdl hdr h⟩

/-- Witness for C6: two ticks over a table with two direct nodes (and one
pending node) give four heartbeat frames; the frame to node 1 is addressed
and flushed on its connection. -/
theorem C6_heartbeat_ticks_witness :
    Basp.countHeartbeatFrames
        (Basp.runTicks 2 ⟨[(1, .direct (.connection 10)), (2, .pending),
          (3, .direct (.datagram 11))], [], 0, "app"⟩).2 =
      2 * (Basp.directNodes
        (⟨[(1, .direct (.connection 10)), (2, .pending),
          (3, .direct (.datagram 11))], [], 0, "app"⟩ :
            Basp.Instance).tbl).length ∧
    (Basp.write_heartbeat (⟨[(1, .direct (.connection 10)), (2, .pending),
          (3, .direct (.datagram 11))], [], 0, "app"⟩ : Basp.Instance) 1 =
        Basp.write_heartbeat ⟨[(1, .direct (.connection 10)), (2, .pending),
          (3, .direct (.datagram 11))], [], 0, "app"⟩
          (Basp.write_heartbeat (⟨[(1, .direct (.connection 10)),
            (2, .pending), (3, .direct (.datagram 11))], [], 0, "app"⟩ :
              Basp.Instance) 1).dest_node ∧
      ((Basp.write_heartbeat (⟨[(1, .direct (.connection 10)), (2, .pending),
          (3, .direct (.datagram 11))], [], 0, "app"⟩ :
            Basp.Instance) 1).dest_node, .connection 10) ∈
        Basp.directNodes (⟨[(1, .direct (.connection 10)), (2, .pending),
          (3, .direct (.datagram 11))], [], 0, "app"⟩ :
            Basp.Instance).tbl ∧
      Basp.Event.flush (.connection 10) ∈
        (Basp.runTicks 2 ⟨[(1, .direct (.connection 10)), (2, .pending),
          (3, .direct (.datagram 11))], [], 0, "app"⟩).2) :=
  ⟨(C6_heartbeat_ticks 2 ⟨[(1, .direct (.connection 10)), (2, .pending),
      (3, .direct (.datagram 11))], [], 0, "app"⟩).1,
    (C6_heartbeat_ticks 2 ⟨[(1, .direct (.connection 10)), (2, .pending),
      (3, .direct (.datagram 11))], [], 0, "app"⟩).2 (.connection 10)
      (Basp.write_heartbeat ⟨[(1, .direct (.connection 10)), (2, .pending),
        (3, .direct (.datagram 11))], [], 0, "app"⟩ 1) (by decide)⟩

/-- C8: across every engine entry point, a node newly present in the routing
table after a step got there through a completed handshake (the same step
emits `learned_new_node` for it) or through a pending connection attempt;
and whenever a step removes a node from the routing table, that step emits
`purge_state(node)` (the callback fires before the entry disappears, and the
collaborator cannot mutate the table, which only the engine step updates). -/
theorem C8_routing_table_invariant (i : Basp.Instance) (op : Basp.Op)
    (n : Basp.NodeId) :
    (Basp.containsNode (Basp.step i op).1.tbl n →
      Basp.containsNode i.tbl n ∨
        Basp.Event.learned_new_node n ∈ (Basp.step i op).2 ∨
        op = .connect_pending n) ∧
    (Basp.containsNode i.tbl n →
      ¬ Basp.containsNode (Basp.step i op).1.tbl n →
      Basp.Event.purge_state n ∈ (Basp.step i op).2) := by
  cases op with
  | recv c ci input =>
    have h := Basp.handle_tbl i c ci input n
    refine ⟨fun hc => ?_, fun hold hnew => absurd (h.2 hold) hnew⟩
    rcases h.1 hc with hold | hmem
    · exact Or.inl hold
    · exact Or.inr (Or.inl hmem)
  | dispatch_op sender fwd receiver mid msg =>
    simp only [Basp.step, Basp.dispatch_instance]
    exact ⟨fun hc => Or.inl hc, fun hold hnew => absurd hold hnew⟩
  | heartbeat_tick =>
    exact ⟨fun hc => Or.inl hc, fun hold hnew => absurd hold hnew⟩
  | publish port whom sigs =>
    exact ⟨fun hc => Or.inl hc, fun hold hnew => absurd hold hnew⟩
  | unpublish port =>
    cases hf : (i.published_actors.find? fun e => e.1 = port).map Prod.snd with
    | none =>
      simp only [Basp.step, Basp.remove_published_actor, hf]
      exact ⟨fun hc => Or.inl hc, fun hold hnew => absurd hold hnew⟩
    | some pa =>
      simp only [Basp.step, Basp.remove_published_actor, hf]
      exact ⟨fun hc => Or.inl hc, fun hold hnew => absurd hold hnew⟩
  | connect_pending m =>
    constructor
    · intro hc
      rcases (Basp.containsNode_addRoute i.tbl m n .pending).mp hc with hnm | hold
      · subst hnm
        exact Or.inr (Or.inr rfl)
      · exact Or.inl hold
    · intro hold hnew
      exact absurd
        ((Basp.containsNode_addRoute i.tbl m n .pending).mpr (Or.inr hold)) hnew
  | disconnect m =>
    cases hl : Basp.lookupNode i.tbl m with
    | none =>
      simp only [Basp.step, hl]
      exact ⟨fun hc => Or.inl hc, fun hold hnew => absurd hold hnew⟩
    | some r =>
      simp only [Basp.step, hl]
      constructor
      · intro hc
        exact Or.inl ((Basp.containsNode_filter i.tbl m n).mp hc).1
      · intro hold hnew
        by_cases hnm : n = m
        · subst hnm
          simp
        · exact absurd
            ((Basp.containsNode_filter i.tbl m n).mpr ⟨hold, hnm⟩) hnew

/-- Witness for C8: disconnecting node 5 emits `purge_state(5)` as it leaves
the routing table. -/
theorem C8_routing_table_invariant_witness :
    Basp.Event.purge_state 5 ∈
      (Basp.step ⟨[(5, .pending)], [], 0, "app"⟩ (.disconnect 5)).2 :=
  (C8_routing_table_invariant ⟨[(5, .pending)], [], 0, "app"⟩
    (.disconnect 5) 5).2 (by decide) (by decide)
